import Mathlib

/-
  Verification development for the repair-shop ticketing application
  (`tech_service`): a shallow embedding of the issue extractor
  (`services/extractor.py`), the ticket data model and JSON codec
  (`services/models.py`, `services/storage.py`), and the two store
  backends (`services/storage_sqlite.py`, the live one routed through
  `services/tickets.py`, and the file-based `services/storage.py`).

  Conventions:
  * Python float scores are represented by natural numbers scaled by 100:
    `100` models the float `1.0` and `85` models `0.85`.  The code only
    ever compares, maxes and sorts these two values, so the scaled
    representation is order- and equality-faithful.
  * Characters are treated at ASCII fidelity: `str.lower`, the regex
    classes `[a-z0-9\s]`, `\w`, `\b` and `str.strip`/`str.split`
    whitespace are modelled on ASCII, which covers every string the
    claims mention.
  * Database/file side effects are modelled by explicit state passing;
    a Python exception (which rolls the uncommitted transaction back)
    is modelled by `Except.error` with the state unchanged.
-/

namespace TechService

/-! ## Python string primitives -/

/-- ASCII whitespace recognised by the regex class `\s` and by
`str.strip()` / `str.split()`. -/
def isSpaceChar (c : Char) : Bool :=
  c == ' ' || c == '\t' || c == '\n' || c == '\r' || c == '\x0b' || c == '\x0c'

/-- Characters kept verbatim by `extractor._normalize`
(the regex class `[a-z0-9\s]`). -/
def isKept (c : Char) : Bool :=
  (decide ('a' ≤ c) && decide (c ≤ 'z')) ||
  (decide ('0' ≤ c) && decide (c ≤ '9')) ||
  isSpaceChar c

/-- One character of `extractor._normalize`: lower-case it
(`str.lower`, ASCII), then replace it by a space unless it matches
`[a-z0-9\s]`. -/
def normChar (c : Char) : Char :=
  let l := c.toLower
  if isKept l then l else ' '

/-- `extractor._normalize`: `re.sub(r"[^a-z0-9\s]", " ", text.lower())`. -/
def pyNormalize (s : List Char) : List Char := s.map normChar

/-- The regex word-character class `\w` (ASCII). -/
def isWordChar (c : Char) : Bool :=
  (decide ('a' ≤ c) && decide (c ≤ 'z')) ||
  (decide ('A' ≤ c) && decide (c ≤ 'Z')) ||
  (decide ('0' ≤ c) && decide (c ≤ '9')) ||
  c == '_'

/-- Whether position `i` of `txt` holds a word character
(positions past the end count as non-word). -/
def wordAt (txt : List Char) (i : Nat) : Bool :=
  match txt.drop i with
  | [] => false
  | c :: _ => isWordChar c

/-- The regex `\b` assertion at position `i` of `txt`: the word-ness of
the character before `i` (non-word at the start) differs from the
word-ness of the character at `i`. -/
def boundaryAt (txt : List Char) (i : Nat) : Bool :=
  (if i = 0 then false else wordAt txt (i - 1)) != wordAt txt i

/-- The literal phrase `pat` occurs in `txt` starting at offset `i`. -/
def matchAt (pat txt : List Char) (i : Nat) : Bool :=
  decide ((txt.drop i).take pat.length = pat)

/-- `re.search(rf"\b{re.escape(s)}\b", txt)` for a literal phrase `s`:
some word-boundary-delimited occurrence of `s` in `txt`. -/
def bSearch (pat txt : List Char) : Bool :=
  (List.range (txt.length + 1)).any
    (fun i => boundaryAt txt i && matchAt pat txt i && boundaryAt txt (i + pat.length))

/-- `str.strip()`: drop ASCII whitespace from both ends. -/
def pyStrip (s : String) : String :=
  ⟨((s.data.dropWhile isSpaceChar).reverse.dropWhile isSpaceChar).reverse⟩

/-- Helper for `pySplit`: accumulate the current word (reversed). -/
def pySplitAux : List Char → List Char → List String
  | [], [] => []
  | [], acc => [⟨acc.reverse⟩]
  | c :: cs, acc =>
    if isSpaceChar c then
      if acc.isEmpty then pySplitAux cs [] else ⟨acc.reverse⟩ :: pySplitAux cs []
    else pySplitAux cs (c :: acc)

/-- `str.split()` with no arguments: split on whitespace runs,
producing no empty tokens. -/
def pySplit (s : String) : List String := pySplitAux s.data []

/-! ## Issue extractor (`services/extractor.py`) -/

/-- The `KEYWORDS` mapping of `extractor.py`, in Python dict insertion
order: canonical label to its synonym phrases. -/
def KEYWORDS : List (String × List String) :=
  [ ("black screen", ["black screen", "blank screen", "no display", "screen is off"]),
    ("broken screen", ["broken screen", "cracked screen", "shattered glass", "screen cracked"]),
    ("battery issue", ["battery issue", "battery drain", "won\x27t charge", "not charging", "charging issue", "battery problem"]),
    ("overheating", ["overheating", "overheat", "too hot", "heating up", "fan working constantly"]),
    ("no sound", ["no sound", "no audio", "speaker not working", "mute"]),
    ("won\x27t turn on", ["won\x27t turn on", "not turning on", "doesn\x27t start", "won\x27t start"]) ]

/-- Score of a matched synonym: `1.0` (here `100`) when the synonym is
the canonical phrase itself, else `0.85` (here `85`). -/
def synScore (canonical s : String) : Nat := if s = canonical then 100 else 85

/-- The inner loop of `extract_labels` for one canonical label: fold the
synonym list, recording the maximum score of any matching synonym
(`found[canonical] = max(found.get(canonical, 0.0), score)`). -/
def labelScore (canonical : String) (txt : List Char) : List String → Option Nat → Option Nat
  | [], acc => acc
  | s :: rest, acc =>
    labelScore canonical txt rest
      (if bSearch s.data txt then some (max (acc.getD 0) (synScore canonical s)) else acc)

/-- The `found` dict of `extract_labels` as an association list in key
insertion order (each canonical label appears at most once). -/
def foundList (txt : List Char) : List (String × Nat) :=
  KEYWORDS.filterMap (fun p => (labelScore p.1 txt p.2 none).map (fun v => (p.1, v)))

/-- Lexicographic code-point comparison of character lists: how Python
compares strings and how SQLite's BINARY collation orders TEXT. -/
def charsLe : List Char → List Char → Bool
  | [], _ => true
  | _ :: _, [] => false
  | a :: as, b :: bs =>
    if a.toNat < b.toNat then true
    else if b.toNat < a.toNat then false
    else charsLe as bs

/-- String comparison by code points. -/
def strLe (a b : String) : Bool := charsLe a.data b.data

/-- The sort order `key=lambda kv: (-kv[1], kv[0])`: descending score,
ties by ascending label name. -/
def labelLe (a b : String × Nat) : Prop :=
  b.2 < a.2 ∨ (a.2 = b.2 ∧ strLe a.1 b.1 = true)

instance : DecidableRel labelLe := fun a b =>
  inferInstanceAs (Decidable (b.2 < a.2 ∨ (a.2 = b.2 ∧ strLe a.1 b.1 = true)))

/-- `extractor.extract_labels`: normalize the text, score every
canonical label from its synonyms, and emit `(label, score, "rules")`
triples sorted by descending score then ascending name. -/
def extract_labels (text : String) : List (String × Nat × String) :=
  (List.insertionSort labelLe (foundList (pyNormalize text.data))).map
    (fun p => (p.1, p.2, "rules"))

/-! ## Data model (`services/models.py`) -/

/-- `models.ALLOWED_STATUSES`, the fixed ordered status enumeration. -/
def ALLOWED_STATUSES : List String :=
  ["new", "received", "diagnosing", "repairing", "ready for pickup", "completed"]

/-- One `models.LabelledIssue`; `score` is the float scaled by 100. -/
structure LabelledIssue where
  name : String
  score : Nat
  source : String
deriving DecidableEq, Repr

/-- One status-history record `{"at": ISO, "status": str, "note": str,
"by": str}` as created by the store. -/
structure HistEntry where
  at_ : String
  status : String
  note : String
  by_ : String
deriving DecidableEq, Repr

/-- `models.Ticket` without the runtime-only `_root` path (excluded from
`as_json` and recomputed by the storage layer on load). -/
structure Ticket where
  id : String
  claim_code : String
  name : String
  email : String
  phone : String
  device_type : String
  brand : String
  model : String
  serial : String
  accessories : String
  description : String
  status : String
  status_history : List HistEntry
  labels : List LabelledIssue
  created_at : String
  updated_at : String
deriving DecidableEq, Repr

/-! ## JSON codec (`models.Ticket.as_json` / `storage.load`)

The persisted form is modelled as a JSON value tree; `json.dumps` /
`json.loads` between `as_json` and `load` are a faithful bijection on
these trees (Python guarantees repr round-trip for its floats), so the
codec is stated tree-to-tree. -/

/-- A JSON value as produced by `as_json`; numbers only ever hold the
scaled label scores. -/
inductive Jsonish where
  | str (s : String)
  | num (n : Nat)
  | arr (xs : List Jsonish)
  | obj (fields : List (String × Jsonish))

/-- `dict.get` on a JSON object: the first binding of the key. -/
def jget (j : Jsonish) (k : String) : Option Jsonish :=
  match j with
  | .obj fs => fs.lookup k
  | _ => none

/-- `data.get(k, dflt)` where a string is expected. -/
def jgetStr (j : Jsonish) (k dflt : String) : String :=
  match jget j k with
  | some (.str s) => s
  | _ => dflt

/-- `data.get(k, [])` where a list is expected: absent key defaults to
the empty list, a present non-list value is a decoding failure. -/
def jgetArr (j : Jsonish) (k : String) : Option (List Jsonish) :=
  match jget j k with
  | none => some []
  | some (.arr xs) => some xs
  | some _ => none

/-- `LabelledIssue.to_dict` (the label entries of the `as_json`
payload). -/
def encodeLabel (l : LabelledIssue) : Jsonish :=
  .obj [("name", .str l.name), ("score", .num l.score), ("source", .str l.source)]

/-- One status-history dict exactly as the store creates it. -/
def encodeHist (h : HistEntry) : Jsonish :=
  .obj [("at", .str h.at_), ("status", .str h.status), ("note", .str h.note), ("by", .str h.by_)]

/-- `Ticket.as_json`: the payload dict in dataclass field order, with
`_root` dropped and `labels` serialised through `to_dict`. -/
def encodeTicket (t : Ticket) : Jsonish :=
  .obj [ ("id", .str t.id), ("claim_code", .str t.claim_code),
         ("name", .str t.name), ("email", .str t.email), ("phone", .str t.phone),
         ("device_type", .str t.device_type), ("brand", .str t.brand),
         ("model", .str t.model), ("serial", .str t.serial),
         ("accessories", .str t.accessories), ("description", .str t.description),
         ("status", .str t.status),
         ("status_history", .arr (t.status_history.map encodeHist)),
         ("labels", .arr (t.labels.map encodeLabel)),
         ("created_at", .str t.created_at), ("updated_at", .str t.updated_at) ]

/-- `LabelledIssue(**d)`: `name` and `score` required, `source`
defaulting to `"rules"`. -/
def decodeLabel (j : Jsonish) : Option LabelledIssue :=
  match jget j "name", jget j "score" with
  | some (.str n), some (.num v) => some ⟨n, v, jgetStr j "source" "rules"⟩
  | _, _ => none

/-- Read back one status-history dict (the four fields the store
writes). -/
def decodeHist (j : Jsonish) : Option HistEntry :=
  match jget j "at", jget j "status" with
  | some (.str a), some (.str s) => some ⟨a, s, jgetStr j "note" "", jgetStr j "by" ""⟩
  | _, _ => none

/-- Decode each element of a JSON list, failing if any element fails. -/
def decodeListWith (f : Jsonish → Option α) : List Jsonish → Option (List α)
  | [] => some []
  | j :: js =>
    match f j, decodeListWith f js with
    | some x, some xs => some (x :: xs)
    | _, _ => none

/-- `storage.load` minus the file I/O: rebuild a `Ticket` from the
parsed JSON tree (`data["id"]` is required, everything else uses
`data.get` defaults). -/
def decodeTicket (j : Jsonish) : Option Ticket :=
  match jget j "id" with
  | some (.str id) =>
    match jgetArr j "status_history", jgetArr j "labels" with
    | some hs, some ls =>
      match decodeListWith decodeHist hs, decodeListWith decodeLabel ls with
      | some hist, some labels =>
        some ⟨id, jgetStr j "claim_code" "", jgetStr j "name" "", jgetStr j "email" "",
              jgetStr j "phone" "", jgetStr j "device_type" "", jgetStr j "brand" "",
              jgetStr j "model" "", jgetStr j "serial" "", jgetStr j "accessories" "",
              jgetStr j "description" "", jgetStr j "status" "new", hist, labels,
              jgetStr j "created_at" "", jgetStr j "updated_at" ""⟩
      | _, _ => none
    | _, _ => none
  | _ => none

/-! ## SQLite store (`services/storage_sqlite.py`)

This is the live backend: `services/tickets.py` (the service facade the
UI consumes) imports all its operations from `storage_sqlite`.  The
operations are modelled as explicit state transitions on the four
tables; generated values (ticket id, claim code, `iso_now()` timestamps)
enter as parameters.  A raised Python exception leaves the transaction
uncommitted, so SQLite rolls it back: modelled as `Except.error` with
the state unchanged.  The attachment-file phase is outside the claims
and is not modelled. -/

/-- Errors the store operations can raise. -/
inductive StoreErr where
  /-- `sqlite3.IntegrityError`: UNIQUE/PRIMARY KEY or FOREIGN KEY
  violation. -/
  | integrityError
  /-- `AttributeError`: attribute access on a plain tuple. -/
  | attributeError
  /-- `ValueError`: validation failure. -/
  | valueError
  /-- `FileNotFoundError`: unknown ticket id. -/
  | notFound
deriving DecidableEq, Repr

/-- One row of the `tickets` table. -/
structure TicketRow where
  id : String
  claim_code : String
  name : String
  email : String
  phone : String
  device_type : String
  brand : String
  model : String
  serial : String
  accessories : String
  description : String
  status : String
  created_at : String
  updated_at : String
deriving DecidableEq, Repr

/-- One row of the `status_history` table (`rowid` is the
AUTOINCREMENT primary key). -/
structure HistRow where
  rowid : Nat
  ticket_id : String
  at_ : String
  status : String
  note : String
  by_actor : String
deriving DecidableEq, Repr

/-- One row of the `labels` table. -/
structure LabelRow where
  rowid : Nat
  ticket_id : String
  name : String
  score : Nat
  source : String
deriving DecidableEq, Repr

/-- The database: the three ticket-bearing tables (rows listed in
insertion order) and the next AUTOINCREMENT values. -/
structure DB where
  tickets : List TicketRow
  history : List HistRow
  labels : List LabelRow
  nextHist : Nat
  nextLabel : Nat
deriving DecidableEq, Repr

/-- A fresh database (SQLite AUTOINCREMENT starts at 1). -/
def emptyDB : DB := ⟨[], [], [], 1, 1⟩

/-- History rows in strictly increasing `rowid` order. -/
def histLt (a b : HistRow) : Prop := a.rowid < b.rowid

instance : DecidableRel histLt := fun a b =>
  inferInstanceAs (Decidable (a.rowid < b.rowid))

/-- Relation realising `ORDER BY id ASC` on history rows. -/
def histLe (a b : HistRow) : Prop := a.rowid ≤ b.rowid

instance : DecidableRel histLe := fun a b =>
  inferInstanceAs (Decidable (a.rowid ≤ b.rowid))

/-- Projection of a history row to the dict `_row_to_ticket` builds. -/
def entryOf (r : HistRow) : HistEntry := ⟨r.at_, r.status, r.note, r.by_actor⟩

namespace StorageSqlite

/-- `storage_sqlite.save_ticket`.  In source order: INSERT the ticket
row (raises `IntegrityError` if `id` or the UNIQUE `claim_code`
collides), INSERT the creation history row, then loop over
`extract_labels(description or "")`.  That loop reads `lbl.name` on the
plain tuples `extract_labels` returns, so its first iteration raises
`AttributeError`; it is reached exactly when the extraction is
non-empty, and the raise happens before `conn.commit()`, rolling
everything back. -/
def save_ticket (db : DB) (tid claim now : String)
    (name email phone device_type brand model serial accessories description actor : String) :
    Except StoreErr DB :=
  if db.tickets.any (fun r => r.id == tid || r.claim_code == claim) then
    .error .integrityError
  else if (extract_labels description).isEmpty then
    .ok ⟨db.tickets ++
           [⟨tid, claim, name, email, phone, device_type, brand, model, serial,
             accessories, description, "new", now, now⟩],
         db.history ++ [⟨db.nextHist, tid, now, "new", "", actor⟩],
         db.labels, db.nextHist + 1, db.nextLabel⟩
  else
    .error .attributeError

/-- `storage_sqlite.update_status`: strip the requested status, raise
`ValueError` when the stripped value is not in `ALLOWED_STATUSES`,
otherwise UPDATE the ticket row (status, `updated_at`) and INSERT one
history row.  With `PRAGMA foreign_keys=ON`, the history INSERT raises
`IntegrityError` when no ticket has this id, rolling the UPDATE back. -/
def update_status (db : DB) (ticket_id status note actor now : String) :
    Except StoreErr DB :=
  let st := pyStrip status
  if (ALLOWED_STATUSES.contains st) = false then
    .error .valueError
  else if db.tickets.any (fun r => r.id == ticket_id) then
    .ok ⟨db.tickets.map (fun r =>
           if r.id == ticket_id then
             ⟨r.id, r.claim_code, r.name, r.email, r.phone, r.device_type, r.brand,
              r.model, r.serial, r.accessories, r.description, st, r.created_at, now⟩
           else r),
         db.history ++ [⟨db.nextHist, ticket_id, now, st, note, actor⟩],
         db.labels, db.nextHist + 1, db.nextLabel⟩
  else
    .error .integrityError

/-- `storage_sqlite.reclassify`: look the ticket up (raising
`FileNotFoundError` when absent), DELETE its label rows and re-insert
`extract_labels` of the stored description.  The insert loop reads
`lbl.name` on plain tuples, so a non-empty extraction raises
`AttributeError` before the commit (rolling the DELETE back).  The
ticket row — including `updated_at` — is never touched. -/
def reclassify (db : DB) (ticket_id : String) : Except StoreErr DB :=
  match db.tickets.find? (fun r => r.id == ticket_id) with
  | none => .error .notFound
  | some row =>
    if (extract_labels row.description).isEmpty then
      .ok ⟨db.tickets, db.history,
           db.labels.filter (fun l => !(l.ticket_id == ticket_id)),
           db.nextHist, db.nextLabel⟩
    else
      .error .attributeError

/-- `ORDER BY id ASC` on the history rows of one ticket, then the
projection `_row_to_ticket` applies to build the history dicts. -/
def loadHistory (db : DB) (tid : String) : List HistEntry :=
  (List.insertionSort histLe (db.history.filter (fun r => r.ticket_id == tid))).map entryOf

/-- The ordering of `SELECT * FROM tickets ORDER BY created_at DESC`
(`storage_sqlite.list_all`): descending `created_at`, ISO-8601
timestamps compared as TEXT. -/
def createdDesc (a b : TicketRow) : Prop := strLe b.created_at a.created_at = true

instance : DecidableRel createdDesc := fun a b =>
  inferInstanceAs (Decidable (strLe b.created_at a.created_at = true))

/-- The contract of `storage_sqlite.list_all`: the query returns the
ticket rows in some order that is a permutation of the table sorted by
`created_at` descending — `ORDER BY created_at DESC` names no
tie-break, so any order among rows with equal `created_at` satisfies
the query. -/
def listAllPossible (db : DB) (out : List TicketRow) : Prop :=
  db.tickets.Perm out ∧ List.Sorted createdDesc out

instance (db : DB) (out : List TicketRow) : Decidable (listAllPossible db out) :=
  inferInstanceAs (Decidable (db.tickets.Perm out ∧ List.Sorted createdDesc out))

/-- One executable refinement of `list_all`: a stable sort of the table
by descending `created_at`. -/
def list_all (db : DB) : List TicketRow :=
  List.insertionSort createdDesc db.tickets

end StorageSqlite

/-! ## File-based store (`services/storage.py`): the create-path
validation.  This abandoned backend is the only one that validates at
all; its `save_ticket` raises `ValueError` before any file is written
when the name has fewer than 2 whitespace tokens (or is blank) or the
email is blank after stripping. -/

namespace StorageFile

/-- The file store: ticket id to the decoded `meta.json` content. -/
structure FStore where
  files : List (String × Ticket)
deriving DecidableEq

/-- `storage.save_ticket`: the validation prefix and the persisted
ticket.  This backend converts the extractor tuples into
`LabelledIssue` values (`LabelledIssue(n, float(s), src)`), so it does
not crash on non-empty extractions. -/
def save_ticket (st : FStore) (tid claim now : String)
    (name email phone device_type brand model serial accessories description actor : String) :
    Except StoreErr FStore :=
  if pyStrip name = "" ∨ (pySplit name).length < 2 then
    .error .valueError
  else if pyStrip email = "" then
    .error .valueError
  else
    let labels := (extract_labels description).map (fun p => LabelledIssue.mk p.1 p.2.1 p.2.2)
    let t : Ticket :=
      ⟨tid, claim, pyStrip name, pyStrip email, pyStrip phone, pyStrip device_type,
       pyStrip brand, pyStrip model, pyStrip serial, pyStrip accessories,
       pyStrip description, "new", [⟨now, "new", "Ticket created", actor⟩], labels, now, now⟩
    .ok ⟨st.files ++ [(tid, t)]⟩

end StorageFile

/-! ## Helpers for stating the claims -/

instance {ε α : Type} [DecidableEq ε] [DecidableEq α] : DecidableEq (Except ε α) :=
  fun a b =>
    match a, b with
    | .ok x, .ok y =>
      if h : x = y then isTrue (by rw [h]) else isFalse (fun hh => h (Except.ok.inj hh))
    | .error x, .error y =>
      if h : x = y then isTrue (by rw [h]) else isFalse (fun hh => h (Except.error.inj hh))
    | .ok _, .error _ => isFalse (fun hh => Except.noConfusion hh)
    | .error _, .ok _ => isFalse (fun hh => Except.noConfusion hh)

/-- The error of a store call, `none` when the call succeeded. -/
def exceptErr {α : Type} : Except StoreErr α → Option StoreErr
  | .error e => some e
  | .ok _ => none

/-- The resulting database of a successful store call. -/
def okDB : Except StoreErr DB → Option DB
  | .ok db => some db
  | .error _ => none

/-- Modelled from the claim's words (its antecedent is stated about the
description as written, not about the extractor's internals): the raw
description contains the phrase delimited by word boundaries. -/
def containsWholeWord (phrase text : String) : Bool :=
  bSearch phrase.data text.data

/-- Well-formedness that SQLite's AUTOINCREMENT maintains for the
`status_history` table: rows are stored with strictly increasing
`rowid`s, all below the next AUTOINCREMENT value. -/
def goodDB (db : DB) : Prop :=
  List.Pairwise histLt db.history ∧ ∀ r ∈ db.history, r.rowid < db.nextHist

instance (db : DB) : Decidable (goodDB db) :=
  inferInstanceAs
    (Decidable (List.Pairwise histLt db.history ∧ ∀ r ∈ db.history, r.rowid < db.nextHist))

/-- Distinct `claim_code`s. -/
def claimNe (a b : TicketRow) : Prop := a.claim_code ≠ b.claim_code

instance : DecidableRel claimNe := fun a b =>
  inferInstanceAs (Decidable (a.claim_code ≠ b.claim_code))

/-- The UNIQUE constraint on `tickets.claim_code`: pairwise distinct
claim codes. -/
def uniqueClaims (db : DB) : Prop := List.Pairwise claimNe db.tickets

instance (db : DB) : Decidable (uniqueClaims db) :=
  inferInstanceAs (Decidable (List.Pairwise claimNe db.tickets))

/-- The arguments of one `update_status` call (timestamp included,
standing for that call's `iso_now()`). -/
structure UpdReq where
  status : String
  note : String
  actor : String
  now : String
deriving DecidableEq, Repr

/-- Run a sequence of `update_status` calls, stopping at the first
failure. -/
def applyUpdates (db : DB) (tid : String) : List UpdReq → Except StoreErr DB
  | [] => .ok db
  | u :: rest =>
    match StorageSqlite.update_status db tid u.status u.note u.actor u.now with
    | .ok db' => applyUpdates db' tid rest
    | .error e => .error e

/-- The history dict a successful `update_status` call appends. -/
def entryOfReq (u : UpdReq) : HistEntry :=
  ⟨u.now, pyStrip u.status, u.note, u.actor⟩

/-! ## Concrete fixtures for counterexamples and witnesses -/

/-- A ticket row as created by a successful intake. -/
def rowT1 : TicketRow :=
  ⟨"t1", "ABC1234", "Ada Lovelace", "ada@example.com", "", "Laptop", "", "", "", "",
   "hello", "new", "2024-01-01T00:00:00Z", "2024-01-01T00:00:00Z"⟩

/-- A store holding exactly `rowT1` with its creation history entry. -/
def db8 : DB :=
  ⟨[rowT1], [⟨1, "t1", "2024-01-01T00:00:00Z", "new", "", "front desk"⟩], [], 2, 1⟩

/-- A ticket whose stored description the extractor classifies. -/
def rowC3a : TicketRow :=
  ⟨"t1", "ABC1234", "Ada Lovelace", "ada@example.com", "", "Laptop", "", "", "", "",
   "overheating", "new", "2024-01-01T00:00:00Z", "2024-01-01T00:00:00Z"⟩

/-- `rowC3a`'s store, carrying one stale label row. -/
def dbC3a : DB :=
  ⟨[rowC3a], [⟨1, "t1", "2024-01-01T00:00:00Z", "new", "", "front desk"⟩],
   [⟨1, "t1", "black screen", 100, "rules"⟩], 2, 2⟩

/-- A ticket whose stored description the extractor does not match. -/
def rowC3b : TicketRow :=
  ⟨"t1", "ABC1234", "Ada Lovelace", "ada@example.com", "", "Laptop", "", "", "", "",
   "a nice day", "new", "2024-01-01T00:00:00Z", "2024-01-01T00:00:00Z"⟩

/-- `rowC3b`'s store. -/
def dbC3b : DB :=
  ⟨[rowC3b], [⟨1, "t1", "2024-01-01T00:00:00Z", "new", "", "front desk"⟩], [], 2, 1⟩

/-- Two tickets sharing `created_at`, ids in ascending order. -/
def rowA : TicketRow :=
  ⟨"a", "AAAAAAA", "Ada Lovelace", "ada@example.com", "", "Laptop", "", "", "", "",
   "hello", "new", "2024-01-01T00:00:00Z", "2024-01-01T00:00:00Z"⟩

/-- Second ticket with the same `created_at` as `rowA`. -/
def rowB : TicketRow :=
  ⟨"b", "BBBBBBB", "Bob Smith", "bob@example.com", "", "Phone", "", "", "", "",
   "hello", "new", "2024-01-01T00:00:00Z", "2024-01-01T00:00:00Z"⟩

/-- A store with the two `created_at`-tied tickets. -/
def db9 : DB := ⟨[rowA, rowB], [], [], 1, 1⟩

/-- Two status updates for the history witness. -/
def w7us : List UpdReq :=
  [⟨"received", "", "technician", "2024-01-02T00:00:00Z"⟩,
   ⟨"completed", "done", "technician", "2024-01-03T00:00:00Z"⟩]

/-- The store after the witness create call. -/
def w7db1 : DB :=
  (okDB (StorageSqlite.save_ticket emptyDB "t1" "ABC1234" "2024-01-01T00:00:00Z"
    "Ada Lovelace" "ada@example.com" "" "Laptop" "" "" "" "" "hello" "front desk")).getD emptyDB

/-- The store after the witness updates. -/
def w7db2 : DB := (okDB (applyUpdates w7db1 "t1" w7us)).getD emptyDB

/-- An empty file-backend store. -/
def emptyFS : StorageFile.FStore := ⟨[]⟩

/-! ## Helper lemmas -/

theorem charsLe_total : ∀ a b : List Char, charsLe a b = true ∨ charsLe b a = true
  | [], _ => Or.inl rfl
  | _ :: _, [] => Or.inr rfl
  | x :: xs, y :: ys => by
    by_cases hxy : x.toNat < y.toNat
    · exact Or.inl (by simp [charsLe, hxy])
    · by_cases hyx : y.toNat < x.toNat
      · exact Or.inr (by simp [charsLe, hyx])
      · rcases charsLe_total xs ys with h | h
        · exact Or.inl (by simp [charsLe, hxy, hyx, h])
        · exact Or.inr (by simp [charsLe, hxy, hyx, h])

theorem charsLe_trans :
    ∀ a b c : List Char, charsLe a b = true → charsLe b c = true → charsLe a c = true
  | [], _, _, _, _ => rfl
  | _ :: _, [], _, h1, _ => absurd h1 (by simp [charsLe])
  | _ :: _, _ :: _, [], _, h2 => absurd h2 (by simp [charsLe])
  | x :: xs, y :: ys, z :: zs, h1, h2 => by
    by_cases hxy : x.toNat < y.toNat
    · by_cases hyz : y.toNat < z.toNat
      · simp [charsLe, Nat.lt_trans hxy hyz]
      · by_cases hzy : z.toNat < y.toNat
        · exact absurd h2 (by simp [charsLe, hyz, hzy])
        · have hyz' : y.toNat = z.toNat := Nat.le_antisymm (Nat.le_of_not_lt hzy) (Nat.le_of_not_lt hyz)
          simp [charsLe, hyz' ▸ hxy]
    · by_cases hyx : y.toNat < x.toNat
      · exact absurd h1 (by simp [charsLe, hxy, hyx])
      · have hxy' : x.toNat = y.toNat := Nat.le_antisymm (Nat.le_of_not_lt hyx) (Nat.le_of_not_lt hxy)
        have h1' : charsLe xs ys = true := by simpa [charsLe, hxy, hyx] using h1
        by_cases hyz : y.toNat < z.toNat
        · simp [charsLe, hxy' ▸ hyz]
        · by_cases hzy : z.toNat < y.toNat
          · exact absurd h2 (by simp [charsLe, hyz, hzy])
          · have h2' : charsLe ys zs = true := by simpa [charsLe, hyz, hzy] using h2
            simp [charsLe, hxy' ▸ hyz, hxy' ▸ hzy, charsLe_trans xs ys zs h1' h2']

/-! ## Claim theorems -/

/-- Claim C1 (code bug evidence): running the extractor on the
description "overheating" yields one label, yet the live create path
(`storage_sqlite.save_ticket`) fails with `AttributeError` on that very
description — the label-insert loop reads `.name` on the plain tuples
`extract_labels` returns — so no successful create ever persists a
non-empty label set, contradicting the claim that the persisted labels
are the extractor's output. -/
theorem C1_create_crashes_on_labels :
    extract_labels "overheating" = [("overheating", 100, "rules")] ∧
    exceptErr (StorageSqlite.save_ticket emptyDB "t1" "ABC1234" "2024-01-01T00:00:00Z"
        "Ada Lovelace" "ada@example.com" "" "Laptop" "" "" "" "" "overheating" "front desk") =
      some .attributeError :=
  ⟨by decide, by decide⟩

/-- Claim C2 (counterexample): the live create path performs no
validation at all — a single-word name together with a malformed email
is accepted and the record is persisted, contradicting the claimed
validation failure. -/
theorem C2_cex_no_validation :
    (pySplit "Madonna").length = 1 ∧
    ((okDB (StorageSqlite.save_ticket emptyDB "t1" "ABC1234" "2024-01-01T00:00:00Z"
        "Madonna" "not-an-email" "" "Laptop" "" "" "" "" "" "front desk")).getD
      emptyDB).tickets.map (fun r => (r.name, r.email)) = [("Madonna", "not-an-email")] :=
  ⟨by decide, by decide⟩

/-- Claim C3 (code bug evidence): `storage_sqlite.reclassify` on a
ticket whose stored description the extractor matches raises
`AttributeError` (the re-insert loop reads `.name` on plain tuples), so
the stale label rows survive the rolled-back transaction; and even on
the successful no-match path the ticket row keeps its old `updated_at`
— the operation never bumps it. -/
theorem C3_reclassify_crashes_and_never_bumps :
    exceptErr (StorageSqlite.reclassify dbC3a "t1") = some .attributeError ∧
    dbC3a.labels.map (fun l => l.name) = ["black screen"] ∧
    (okDB (StorageSqlite.reclassify dbC3b "t1")).map
        (fun d => d.tickets.map (fun r => r.updated_at)) =
      some ["2024-01-01T00:00:00Z"] :=
  ⟨by decide, by decide, by decide⟩

/-- Claim C4 (code bug evidence): on "Battery won't charge and
overheating" the extractor returns only `overheating` (score `100`,
i.e. 1.0).  The synonym "won't charge" can never match: normalization
replaces the description's apostrophe with a space while the search
pattern keeps it, so `battery issue` (claimed at score 0.85) is
absent. -/
theorem C4_extract_battery_overheating :
    extract_labels "Battery won\x27t charge and overheating" =
      [("overheating", 100, "rules")] := by decide

/-- Claim C5 (counterexample): "won't charge" is a configured synonym
of `battery issue` and occurs whole-word in the description, yet the
extractor returns nothing — apostrophe-bearing synonyms can never
match the apostrophe-free normalized text. -/
theorem C5_cex_apostrophe_synonym :
    ((KEYWORDS.lookup "battery issue").getD []).contains "won\x27t charge" = true ∧
    containsWholeWord "won\x27t charge" "my phone won\x27t charge" = true ∧
    extract_labels "my phone won\x27t charge" = [] :=
  ⟨by decide, by decide, by decide⟩

/-- Claim C8 (counterexample): `update_status` strips the requested
status before checking it, so the argument `" new "` — not a member of
the fixed enumeration — still succeeds. -/
theorem C8_cex_strip_before_check :
    ALLOWED_STATUSES.contains " new " = false ∧
    exceptErr (StorageSqlite.update_status db8 "t1" " new " "" "technician"
      "2024-01-05T00:00:00Z") = none :=
  ⟨by decide, by decide⟩

/-- Claim C9 (counterexample): with two tickets sharing `created_at`,
both orders satisfy `ORDER BY created_at DESC` — the query fixes no id
tie-break, so the claimed id-descending, deterministic order does not
hold; in particular the id-ascending output is permitted. -/
theorem C9_cex_tie_not_broken_by_id :
    StorageSqlite.listAllPossible db9 [rowA, rowB] ∧
    StorageSqlite.listAllPossible db9 [rowB, rowA] ∧
    ([rowA, rowB] : List TicketRow) ≠ [rowB, rowA] ∧
    rowA.created_at = rowB.created_at ∧ rowA.id ≠ rowB.id :=
  ⟨by decide, by decide, by decide, by decide, by decide⟩

/-- Claim C2 (amended): only the file-based backend validates, and only
name token count and email non-emptiness — any create call whose name
has fewer than two whitespace tokens or whose email is blank fails
there with `ValueError` before anything is written; email format is
validated by neither backend, and the live sqlite path validates
nothing. -/
theorem C2_amended_file_backend_validates (st : StorageFile.FStore)
    (tid claim now name email phone device_type brand model serial accessories description actor :
      String)
    (h : (pySplit name).length < 2 ∨ pyStrip email = "") :
    StorageFile.save_ticket st tid claim now name email phone device_type brand model serial
      accessories description actor = .error .valueError := by
  unfold StorageFile.save_ticket
  rcases h with h | h
  · rw [if_pos (Or.inr h)]
  · by_cases hn : pyStrip name = "" ∨ (pySplit name).length < 2
    · rw [if_pos hn]
    · rw [if_neg hn, if_pos h]

/-- Witness for C2 (amended): the single-word name "Madonna" is
rejected by the file backend. -/
theorem C2_amended_witness :
    ((pySplit "Madonna").length < 2 ∨ pyStrip "ada@example.com" = "") ∧
    StorageFile.save_ticket emptyFS "t1" "ABC1234" "2024-01-01T00:00:00Z" "Madonna"
      "ada@example.com" "" "Laptop" "" "" "" "" "hello" "front desk" = .error .valueError :=
  ⟨Or.inl (by decide),
   C2_amended_file_backend_validates emptyFS "t1" "ABC1234" "2024-01-01T00:00:00Z" "Madonna"
     "ada@example.com" "" "Laptop" "" "" "" "" "hello" "front desk" (Or.inl (by decide))⟩

theorem decode_encode_label (l : LabelledIssue) : decodeLabel (encodeLabel l) = some l := rfl

theorem decode_encode_hist (h : HistEntry) : decodeHist (encodeHist h) = some h := rfl

theorem decode_labels_list (ls : List LabelledIssue) :
    decodeListWith decodeLabel (ls.map encodeLabel) = some ls := by
  induction ls with
  | nil => rfl
  | cons l ls ih => simp [decodeListWith, decode_encode_label, ih]

theorem decode_hists_list (hs : List HistEntry) :
    decodeListWith decodeHist (hs.map encodeHist) = some hs := by
  induction hs with
  | nil => rfl
  | cons h hs ih => simp [decodeListWith, decode_encode_hist, ih]

/-- Claim C6: decoding the encoded form of any ticket yields the same
ticket field-for-field, label order and history order included. -/
theorem C6_round_trip (t : Ticket) : decodeTicket (encodeTicket t) = some t := by
  simp [decodeTicket, encodeTicket, jget, jgetArr, jgetStr, List.lookup,
    decode_labels_list, decode_hists_list]

/-- Claim C8 (amended): given an existing ticket, `update_status`
succeeds exactly when the whitespace-stripped status is a member of
the fixed enumeration; every member succeeds regardless of the
ticket's current status — no forward-only transition is enforced. -/
theorem C8_amended_strip_membership (db : DB) (ticket_id status note actor now : String)
    (hex : db.tickets.any (fun r => r.id == ticket_id) = true) :
    exceptErr (StorageSqlite.update_status db ticket_id status note actor now) = none ↔
      ALLOWED_STATUSES.contains (pyStrip status) = true := by
  simp only [List.any_eq_true, beq_iff_eq] at hex
  by_cases hst : pyStrip status ∈ ALLOWED_STATUSES
  · simp [StorageSqlite.update_status, hst, hex, exceptErr]
  · simp [StorageSqlite.update_status, hst, exceptErr]

/-- Witness for C8 (amended): updating the existing ticket of `db8` to
"received" succeeds, as the membership test demands. -/
theorem C8_amended_witness :
    db8.tickets.any (fun r => r.id == "t1") = true ∧
    (exceptErr (StorageSqlite.update_status db8 "t1" "received" "" "technician"
        "2024-01-05T00:00:00Z") = none ↔
      ALLOWED_STATUSES.contains (pyStrip "received") = true) :=
  ⟨by decide,
   C8_amended_strip_membership db8 "t1" "received" "" "technician" "2024-01-05T00:00:00Z"
     (by decide)⟩

/-- Claim C9 (amended): `list_all` returns all ticket rows sorted by
`created_at` descending — a permutation of the table satisfying the
query's only ordering constraint; ties on `created_at` are not ordered
further (no id tie-break), as the counterexample shows. -/
theorem C9_amended_sorted_permutation (db : DB) :
    StorageSqlite.listAllPossible db (StorageSqlite.list_all db) := by
  constructor
  · exact (List.perm_insertionSort _ _).symm
  · haveI : IsTotal TicketRow StorageSqlite.createdDesc :=
      ⟨fun a b => charsLe_total b.created_at.data a.created_at.data⟩
    haveI : IsTrans TicketRow StorageSqlite.createdDesc :=
      ⟨fun a b c h1 h2 => charsLe_trans c.created_at.data b.created_at.data a.created_at.data h2 h1⟩
    exact List.sorted_insertionSort _ _

/-- Claim C10: a create call whose generated claim code collides with a
persisted one fails with `IntegrityError` (the UNIQUE constraint — the
collision is detected, never silently persisted), and any successful
create preserves pairwise-distinct claim codes. -/
theorem C10_claim_codes (db : DB)
    (tid claim now name email phone device_type brand model serial accessories description actor :
      String)
    (hu : uniqueClaims db) :
    (db.tickets.any (fun r => r.claim_code == claim) = true →
      StorageSqlite.save_ticket db tid claim now name email phone device_type brand model serial
        accessories description actor = .error .integrityError) ∧
    (∀ db₁, StorageSqlite.save_ticket db tid claim now name email phone device_type brand model
        serial accessories description actor = .ok db₁ → uniqueClaims db₁) := by
  constructor
  · intro hcol
    have hany : db.tickets.any (fun r => r.id == tid || r.claim_code == claim) = true := by
      rcases List.any_eq_true.mp hcol with ⟨r, hr, hc⟩
      exact List.any_eq_true.mpr ⟨r, hr, by simp [hc]⟩
    simp [StorageSqlite.save_ticket, hany]
  · intro db₁ hok
    by_cases hc : db.tickets.any (fun r => r.id == tid || r.claim_code == claim) = true
    · simp [StorageSqlite.save_ticket, hc] at hok
    · have hnone : ∀ r ∈ db.tickets, r.claim_code ≠ claim := by
        intro r hr heq
        exact hc (List.any_eq_true.mpr ⟨r, hr, by simp [heq]⟩)
      by_cases he : (extract_labels description).isEmpty = true
      · have hdb : db₁.tickets = db.tickets ++
            [⟨tid, claim, name, email, phone, device_type, brand, model, serial,
              accessories, description, "new", now, now⟩] := by
          simp [StorageSqlite.save_ticket, hc, he] at hok
          rw [hok.symm]
        rw [uniqueClaims, hdb]
        refine List.pairwise_append.mpr ⟨hu, List.pairwise_singleton _ _, ?_⟩
        intro a ha b hb
        rw [List.mem_singleton] at hb
        rw [hb]
        exact hnone a ha
      · simp [StorageSqlite.save_ticket, hc, he] at hok

/-- Witness for C10: creating against `db8` with its already-persisted
claim code "ABC1234" fails with `IntegrityError`. -/
theorem C10_witness :
    uniqueClaims db8 ∧
    StorageSqlite.save_ticket db8 "t2" "ABC1234" "2024-01-06T00:00:00Z" "Bob Smith"
      "bob@example.com" "" "Phone" "" "" "" "" "" "front desk" = .error .integrityError :=
  ⟨by decide,
   (C10_claim_codes db8 "t2" "ABC1234" "2024-01-06T00:00:00Z" "Bob Smith" "bob@example.com" ""
     "Phone" "" "" "" "" "" "front desk" (by decide)).1 (by decide)⟩

theorem labelScore_isSome (canonical : String) (txt : List Char) :
    ∀ (syns : List String) (acc : Option Nat),
      (labelScore canonical txt syns acc).isSome = true ↔
        (acc.isSome = true ∨ ∃ s, s ∈ syns ∧ bSearch s.data txt = true) := by
  intro syns
  induction syns with
  | nil => intro acc; simp [labelScore]
  | cons s rest ih =>
    intro acc
    by_cases hb : bSearch s.data txt = true
    · constructor
      · intro _
        exact Or.inr ⟨s, List.mem_cons_self s rest, hb⟩
      · intro _
        have : (labelScore canonical txt rest
            (some (max (acc.getD 0) (synScore canonical s)))).isSome = true :=
          (ih _).mpr (Or.inl rfl)
        simpa [labelScore, hb] using this
    · have hb' : bSearch s.data txt = false := by
        revert hb; cases bSearch s.data txt <;> simp
      constructor
      · intro h
        have h' := (ih acc).mp (by simpa [labelScore, hb'] using h)
        rcases h' with h' | ⟨s', hs', hbs⟩
        · exact Or.inl h'
        · exact Or.inr ⟨s', List.mem_cons_of_mem s hs', hbs⟩
      · intro h
        have : (labelScore canonical txt rest acc).isSome = true := by
          apply (ih acc).mpr
          rcases h with h | ⟨s', hs', hbs⟩
          · exact Or.inl h
          · rcases List.mem_cons.mp hs' with rfl | hmem
            · rw [hbs] at hb'; cases hb'
            · exact Or.inr ⟨s', hmem, hbs⟩
        simpa [labelScore, hb'] using this

/-- Claim C5 (amended): the extractor emits a canonical label exactly
when one of its configured synonyms occurs word-boundary-delimited in
the normalized description — so whole-word occurrences of
apostrophe-free synonyms always match, substring-only occurrences
inside a longer word never do ("commute" does not trigger the
"mute" synonym), and apostrophe-bearing synonyms never match (the
counterexample). -/
theorem C5_amended_whole_word_iff :
    (∀ d can : String,
        can ∈ (extract_labels d).map (fun p => p.1) ↔
          ∃ syns, (can, syns) ∈ KEYWORDS ∧
            ∃ s, s ∈ syns ∧ bSearch s.data (pyNormalize d.data) = true) ∧
    extract_labels "I commute daily" = [] := by
  constructor
  · intro d can
    constructor
    · intro hmem
      rw [extract_labels] at hmem
      rcases List.mem_map.mp hmem with ⟨trip, htrip, hcan⟩
      rcases List.mem_map.mp htrip with ⟨p, hp, htp⟩
      have hp' : p ∈ foundList (pyNormalize d.data) :=
        (List.mem_insertionSort labelLe).mp hp
      rcases List.mem_filterMap.mp hp' with ⟨q, hq, hfq⟩
      rcases Option.map_eq_some'.mp hfq with ⟨v, hv, hpv⟩
      have hq1 : q.1 = can := by
        have h1 : p.1 = q.1 := by rw [← hpv]
        have h2 : trip.1 = p.1 := by rw [← htp]
        rw [← h1, ← h2, hcan]
      refine ⟨q.2, ?_, ?_⟩
      · rw [← hq1]
        simpa using hq
      · have hsome := (labelScore_isSome q.1 (pyNormalize d.data) q.2 none).mp
          (by rw [hv]; rfl)
        rcases hsome with h | h
        · simp at h
        · exact h
    · rintro ⟨syns, hk, s, hs, hb⟩
      have hsome : (labelScore can (pyNormalize d.data) syns none).isSome = true :=
        (labelScore_isSome can (pyNormalize d.data) syns none).mpr (Or.inr ⟨s, hs, hb⟩)
      rcases Option.isSome_iff_exists.mp hsome with ⟨v, hv⟩
      have hf : (can, v) ∈ foundList (pyNormalize d.data) :=
        List.mem_filterMap.mpr ⟨(can, syns), hk, by rw [hv]; rfl⟩
      have hsorted : (can, v) ∈ List.insertionSort labelLe (foundList (pyNormalize d.data)) :=
        (List.mem_insertionSort labelLe).mpr hf
      rw [extract_labels]
      exact List.mem_map.mpr ⟨(can, v, "rules"), List.mem_map.mpr ⟨(can, v), hsorted, rfl⟩, rfl⟩
  · decide

theorem save_ticket_ok_hist (db db₁ : DB)
    (tid claim now name email phone device_type brand model serial accessories description actor :
      String)
    (h : StorageSqlite.save_ticket db tid claim now name email phone device_type brand model
      serial accessories description actor = .ok db₁) :
    db₁.history = db.history ++ [⟨db.nextHist, tid, now, "new", "", actor⟩] ∧
    db₁.nextHist = db.nextHist + 1 := by
  by_cases hc : db.tickets.any (fun r => r.id == tid || r.claim_code == claim) = true
  · simp [StorageSqlite.save_ticket, hc] at h
  · by_cases he : (extract_labels description).isEmpty = true
    · simp [StorageSqlite.save_ticket, hc, he] at h
      rw [← h]
      exact ⟨rfl, rfl⟩
    · simp [StorageSqlite.save_ticket, hc, he] at h

theorem update_status_ok_hist (db db₁ : DB) (ticket_id status note actor now : String)
    (h : StorageSqlite.update_status db ticket_id status note actor now = .ok db₁) :
    db₁.history = db.history ++ [⟨db.nextHist, ticket_id, now, pyStrip status, note, actor⟩] ∧
    db₁.nextHist = db.nextHist + 1 := by
  by_cases h1 : pyStrip status ∈ ALLOWED_STATUSES
  · by_cases h2 : ∃ x ∈ db.tickets, x.id = ticket_id
    · simp [StorageSqlite.update_status, h1, h2] at h
      rw [← h]
      exact ⟨rfl, rfl⟩
    · simp [StorageSqlite.update_status, h1, h2] at h
  · simp [StorageSqlite.update_status, h1] at h

theorem applyUpdates_hist (tid : String) :
    ∀ (us : List UpdReq) (dbA dbB : DB),
      List.Pairwise histLt dbA.history →
      (∀ r ∈ dbA.history, r.rowid < dbA.nextHist) →
      applyUpdates dbA tid us = .ok dbB →
      List.Pairwise histLt dbB.history ∧
      (∀ r ∈ dbB.history, r.rowid < dbB.nextHist) ∧
      (dbB.history.filter (fun r => r.ticket_id == tid)).map entryOf =
        (dbA.history.filter (fun r => r.ticket_id == tid)).map entryOf ++
          us.map entryOfReq := by
  intro us
  induction us with
  | nil =>
    intro dbA dbB hP hB h
    have hAB : dbA = dbB := by simpa [applyUpdates] using h
    rw [← hAB]
    exact ⟨hP, hB, by simp⟩
  | cons u rest ih =>
    intro dbA dbB hP hB h
    rw [applyUpdates] at h
    cases hu : StorageSqlite.update_status dbA tid u.status u.note u.actor u.now with
    | error e => rw [hu] at h; cases h
    | ok dbMid =>
      rw [hu] at h
      obtain ⟨hh, hn⟩ := update_status_ok_hist dbA dbMid tid u.status u.note u.actor u.now hu
      have hPmid : List.Pairwise histLt dbMid.history := by
        rw [hh]
        refine List.pairwise_append.mpr ⟨hP, List.pairwise_singleton _ _, ?_⟩
        intro a ha b hb
        rw [List.mem_singleton] at hb
        rw [hb]
        exact hB a ha
      have hBmid : ∀ r ∈ dbMid.history, r.rowid < dbMid.nextHist := by
        rw [hh, hn]
        intro r hr
        rcases List.mem_append.mp hr with hr | hr
        · exact Nat.lt_succ_of_lt (hB r hr)
        · rw [List.mem_singleton] at hr
          rw [hr]
          exact Nat.lt_succ_self _
      obtain ⟨hP2, hB2, hfil⟩ := ih dbMid dbB hPmid hBmid h
      refine ⟨hP2, hB2, ?_⟩
      rw [hfil, hh, List.filter_append]
      simp [entryOf, entryOfReq]

/-- Claim C7: for any ticket created by a successful `save_ticket` into
a well-formed store with no orphan history rows for the fresh id, and
any sequence of successful `update_status` calls on it, the loaded
history is exactly the creation entry — recording the `new` status at
creation time — followed by one entry per update in call (insertion)
order: nothing is ever removed, and the length is the number of
updates plus one. -/
theorem C7_history (db : DB)
    (tid claim now name email phone device_type brand model serial accessories description actor :
      String)
    (db₁ db₂ : DB) (us : List UpdReq)
    (hg : goodDB db)
    (hfresh : db.history.filter (fun r => r.ticket_id == tid) = [])
    (hc : StorageSqlite.save_ticket db tid claim now name email phone device_type brand model
      serial accessories description actor = .ok db₁)
    (hu : applyUpdates db₁ tid us = .ok db₂) :
    StorageSqlite.loadHistory db₂ tid = ⟨now, "new", "", actor⟩ :: us.map entryOfReq ∧
    (StorageSqlite.loadHistory db₂ tid).length = us.length + 1 := by
  obtain ⟨hP, hB⟩ := hg
  obtain ⟨hh1, hn1⟩ := save_ticket_ok_hist db db₁ tid claim now name email phone device_type
    brand model serial accessories description actor hc
  have hP1 : List.Pairwise histLt db₁.history := by
    rw [hh1]
    refine List.pairwise_append.mpr ⟨hP, List.pairwise_singleton _ _, ?_⟩
    intro a ha b hb
    rw [List.mem_singleton] at hb
    rw [hb]
    exact hB a ha
  have hB1 : ∀ r ∈ db₁.history, r.rowid < db₁.nextHist := by
    rw [hh1, hn1]
    intro r hr
    rcases List.mem_append.mp hr with hr | hr
    · exact Nat.lt_succ_of_lt (hB r hr)
    · rw [List.mem_singleton] at hr
      rw [hr]
      exact Nat.lt_succ_self _
  obtain ⟨hP2, hB2, hfil⟩ := applyUpdates_hist tid us db₁ db₂ hP1 hB1 hu
  have hfil1 : db₁.history.filter (fun r => r.ticket_id == tid) =
      [⟨db.nextHist, tid, now, "new", "", actor⟩] := by
    rw [hh1, List.filter_append, hfresh]
    simp
  have hsorted : List.Sorted histLe (db₂.history.filter (fun r => r.ticket_id == tid)) :=
    (List.Pairwise.sublist (List.filter_sublist db₂.history) hP2).imp
      (fun h => Nat.le_of_lt h)
  have hload : StorageSqlite.loadHistory db₂ tid =
      (db₂.history.filter (fun r => r.ticket_id == tid)).map entryOf := by
    rw [StorageSqlite.loadHistory, hsorted.insertionSort_eq]
  rw [hload, hfil, hfil1]
  constructor
  · simp [entryOf]
  · simp

/-- Witness for C7: creating a ticket in the empty store and applying
two successful updates yields a three-entry history headed by the
creation entry. -/
theorem C7_witness :
    goodDB emptyDB ∧
    emptyDB.history.filter (fun r => r.ticket_id == "t1") = [] ∧
    StorageSqlite.save_ticket emptyDB "t1" "ABC1234" "2024-01-01T00:00:00Z" "Ada Lovelace"
      "ada@example.com" "" "Laptop" "" "" "" "" "hello" "front desk" = .ok w7db1 ∧
    applyUpdates w7db1 "t1" w7us = .ok w7db2 ∧
    (StorageSqlite.loadHistory w7db2 "t1" =
        ⟨"2024-01-01T00:00:00Z", "new", "", "front desk"⟩ :: w7us.map entryOfReq ∧
      (StorageSqlite.loadHistory w7db2 "t1").length = w7us.length + 1) :=
  ⟨by decide, by decide, by decide, by decide,
   C7_history emptyDB "t1" "ABC1234" "2024-01-01T00:00:00Z" "Ada Lovelace" "ada@example.com" ""
     "Laptop" "" "" "" "" "hello" "front desk" w7db1 w7db2 w7us (by decide) (by decide)
     (by decide) (by decide)⟩

end TechService
